import Mathlib

/-!
Shallow embedding of the Healius exercise-analysis core
(`src/backend/exercises/`): the phase state machine and confidence gate of
`base.py`, and the three detectors `shoulder_squeezes.py`,
`neck_rotations.py`, `ankle_circles.py`.

Numeric modelling: Python floats for times, coordinates and confidences are
modelled as rationals (`ℚ`) wherever the code only adds, subtracts,
multiplies, divides and compares, so every definition is executable; the
ankle-circle detector's `math.atan2` is modelled over the reals (`ℝ`).
Detector instances mutate `self`; here each `analyze` takes the prior state
and returns the updated state paired with the returned analysis record.
-/

namespace Healius

/-- `ExercisePhase` enum from `base.py`. -/
inductive ExercisePhase where
  | not_started
  | setup
  | active
  | cooldown
  | completed
deriving DecidableEq, Repr

/-- COCO-style keypoint indices from `server.py` (`KeypointIndex`). -/
def NOSE : Fin 17 := 0

def LEFT_SHOULDER : Fin 17 := 5

def RIGHT_SHOULDER : Fin 17 := 6

def LEFT_KNEE : Fin 17 := 13

def RIGHT_KNEE : Fin 17 := 14

def LEFT_ANKLE : Fin 17 := 15

def RIGHT_ANKLE : Fin 17 := 16

/-- The default `self.phase_durations` dict of `BaseExercise.__init__`
(Python dicts iterate in insertion order): Setup 120 s, Active 120 s,
Cooldown 60 s. -/
def default_phase_durations : List (ExercisePhase × ℚ) :=
  [(ExercisePhase.setup, 120), (ExercisePhase.active, 120), (ExercisePhase.cooldown, 60)]

/-- The accumulation loop of `BaseExercise.update_phase`: walk the duration
table keeping `cumulative_time`, return the first phase whose cumulative
boundary strictly exceeds `elapsed_time`; falls through to `completed`. -/
def update_phase_aux : List (ExercisePhase × ℚ) → ℚ → ℚ → ExercisePhase
  | [], _, _ => ExercisePhase.completed
  | (p, d) :: rest, cumulative, t =>
    if t < cumulative + d then p else update_phase_aux rest (cumulative + d) t

/-- `BaseExercise.update_phase`: negative elapsed time is `not_started`,
otherwise the duration-table walk. -/
def update_phase (durations : List (ExercisePhase × ℚ)) (elapsed_time : ℚ) : ExercisePhase :=
  if elapsed_time < 0 then ExercisePhase.not_started
  else update_phase_aux durations 0 elapsed_time

/-- `BaseExercise.check_confidence`: returns `false` as soon as one required
index has confidence below the threshold. -/
def check_confidence (threshold : ℚ) (confidence : Fin 17 → ℚ) :
    List (Fin 17) → Bool
  | [] => true
  | idx :: rest =>
    if confidence idx < threshold then false
    else check_confidence threshold confidence rest

/-- `min(confidence[required])`: minimum confidence over a (nonempty in
practice) list of required indices. -/
def conf_min (confidence : Fin 17 → ℚ) : List (Fin 17) → ℚ
  | [] => 0
  | [idx] => confidence idx
  | idx :: rest => min (confidence idx) (conf_min confidence rest)

/-- `ExerciseAnalysis` dataclass of `base.py`; the heterogeneous
`exercise_specific_data` dict is modelled per-exercise by the type
parameter, `none` standing for the empty dict `{}` of the degraded
low-confidence result. -/
structure ExerciseAnalysis (α : Type) where
  exercise_name : String
  phase : ExercisePhase
  form_score : ℚ
  feedback_messages : List String
  rep_count : ℕ
  is_proper_position : Bool
  confidence : ℚ
  exercise_specific_data : Option α
deriving Repr

/-! ## Shoulder-squeeze detector (`shoulder_squeezes.py`) -/

/-- Mutable fields of `ShoulderSqueezesExercise` (`self.rep_count` and
`self.confidence_threshold` from the base class; `self.last_distance` is
assigned in `__init__` and never touched again). -/
structure ShoulderState where
  rep_count : ℕ
  confidence_threshold : ℚ
  baseline_distance : Option ℚ
  in_squeeze : Bool
  last_distance : Option ℚ
deriving DecidableEq, Repr

/-- `ShoulderSqueezesExercise.__init__`. -/
def ShoulderState.init : ShoulderState :=
  { rep_count := 0
    confidence_threshold := 3 / 5
    baseline_distance := none
    in_squeeze := false
    last_distance := none }

/-- `required_keypoints` of the shoulder-squeeze detector. -/
def shoulder_required : List (Fin 17) := [LEFT_SHOULDER, RIGHT_SHOULDER]

/-- `exercise_specific_data` payload of the shoulder-squeeze detector. -/
structure ShoulderData where
  shoulder_distance : ℚ
  baseline_distance : Option ℚ
  in_squeeze : Bool
deriving DecidableEq, Repr

/-- Python truthiness of `self.baseline_distance` in
`if self.baseline_distance:`: `None` and `0.0` are falsy. -/
def baseline_truthy : Option ℚ → Bool
  | none => false
  | some b => decide (b ≠ 0)

/-- `ShoulderSqueezesExercise.analyze`, returning the updated state and the
analysis record. -/
def shoulder_analyze (s : ShoulderState) (keypoints : Fin 17 → ℚ × ℚ)
    (confidence : Fin 17 → ℚ) (elapsed_time : ℚ) :
    ShoulderState × ExerciseAnalysis ShoulderData :=
  let phase := update_phase default_phase_durations elapsed_time
  if check_confidence s.confidence_threshold confidence shoulder_required = false then
    (s, { exercise_name := "Shoulder Squeezes"
          phase := phase
          form_score := 0
          feedback_messages := ["Cannot see shoulders clearly"]
          rep_count := s.rep_count
          is_proper_position := false
          confidence := 0
          exercise_specific_data := none })
  else
    let left_shoulder := keypoints LEFT_SHOULDER
    let right_shoulder := keypoints RIGHT_SHOULDER
    let shoulder_distance := |left_shoulder.1 - right_shoulder.1|
    let step : ShoulderState × List String × ℚ :=
      if phase = ExercisePhase.setup then
        if s.baseline_distance = none ∨ elapsed_time < 10 then
          ({ s with baseline_distance := some shoulder_distance },
            ["Stand tall with shoulders relaxed"], 70)
        else
          (s, ["Get ready to squeeze your shoulder blades"], 70)
      else if phase = ExercisePhase.active then
        if baseline_truthy s.baseline_distance = true then
          let baseline := s.baseline_distance.getD 0
          let squeeze_percent := (baseline - shoulder_distance) / baseline * 100
          if squeeze_percent > 20 then
            if s.in_squeeze = false then
              ({ s with in_squeeze := true }, ["Good squeeze! Hold for 2 seconds"], 90)
            else
              (s, ["Keep holding the squeeze"], 85)
          else
            if s.in_squeeze = true then
              ({ s with rep_count := s.rep_count + 1, in_squeeze := false },
                ["Rep " ++ toString (s.rep_count + 1) ++ " complete!"], 70)
            else
              (s, ["Squeeze your shoulder blades together"], 60)
        else
          (s, [], 70)
      else if phase = ExercisePhase.cooldown then
        (s, ["Great work! You completed " ++ toString s.rep_count ++ " shoulder squeezes"], 85)
      else
        (s, [], 70)
    let s1 := step.1
    (s1, { exercise_name := "Shoulder Squeezes"
           phase := phase
           form_score := step.2.2
           feedback_messages := step.2.1
           rep_count := s1.rep_count
           is_proper_position := true
           confidence := conf_min confidence shoulder_required * 100
           exercise_specific_data := some
             { shoulder_distance := shoulder_distance
               baseline_distance := s1.baseline_distance
               in_squeeze := s1.in_squeeze } })

/-! ## Neck-rotation detector (`neck_rotations.py`) -/

/-- The `'left'` / `'right'` strings held by `self.rotation_direction`. -/
inductive RotDir where
  | left
  | right
deriving DecidableEq, Repr

/-- Mutable fields of `NeckRotationsExercise` (`self.shoulder_midpoint_x`
is written in Setup and never read; `self.last_nose_x` is assigned in
`__init__` and never touched again). -/
structure NeckState where
  rep_count : ℕ
  confidence_threshold : ℚ
  shoulder_midpoint_x : Option ℚ
  last_nose_x : Option ℚ
  rotation_direction : Option RotDir
  left_rotations : ℕ
  right_rotations : ℕ
  rotation_threshold : ℚ
deriving DecidableEq, Repr

/-- `NeckRotationsExercise.__init__`. -/
def NeckState.init : NeckState :=
  { rep_count := 0
    confidence_threshold := 3 / 5
    shoulder_midpoint_x := none
    last_nose_x := none
    rotation_direction := none
    left_rotations := 0
    right_rotations := 0
    rotation_threshold := 30 }

/-- `required_keypoints` of the neck-rotation detector. -/
def neck_required : List (Fin 17) := [NOSE, LEFT_SHOULDER, RIGHT_SHOULDER]

/-- `exercise_specific_data` payload of the neck-rotation detector. -/
structure NeckData where
  nose_offset : ℚ
  left_rotations : ℕ
  right_rotations : ℕ
  rotation_direction : Option RotDir
deriving DecidableEq, Repr

/-- `NeckRotationsExercise.analyze`, returning the updated state and the
analysis record. -/
def neck_analyze (s : NeckState) (keypoints : Fin 17 → ℚ × ℚ)
    (confidence : Fin 17 → ℚ) (elapsed_time : ℚ) :
    NeckState × ExerciseAnalysis NeckData :=
  let phase := update_phase default_phase_durations elapsed_time
  if check_confidence s.confidence_threshold confidence neck_required = false then
    (s, { exercise_name := "Neck Rotations"
          phase := phase
          form_score := 0
          feedback_messages := ["Cannot see face and shoulders clearly"]
          rep_count := s.left_rotations + s.right_rotations
          is_proper_position := false
          confidence := 0
          exercise_specific_data := none })
  else
    let nose := keypoints NOSE
    let left_shoulder := keypoints LEFT_SHOULDER
    let right_shoulder := keypoints RIGHT_SHOULDER
    let shoulder_midpoint_x := (left_shoulder.1 + right_shoulder.1) / 2
    let nose_offset := nose.1 - shoulder_midpoint_x
    let step : NeckState × List String × ℚ :=
      if phase = ExercisePhase.setup then
        ({ s with shoulder_midpoint_x := some shoulder_midpoint_x },
          ["Keep your shoulders still, only move your head"], 70)
      else if phase = ExercisePhase.active then
        if elapsed_time < 180 then
          if nose_offset < -s.rotation_threshold then
            if s.rotation_direction ≠ some RotDir.left then
              ({ s with left_rotations := s.left_rotations + 1,
                        rotation_direction := some RotDir.left },
                ["Left rotation " ++ toString (s.left_rotations + 1)], 90)
            else
              (s, ["Good left rotation, now slowly return to center"], 85)
          else if nose_offset > s.rotation_threshold then
            (s, ["Focus on rotating to your left for now"], 60)
          else
            ({ s with rotation_direction := none },
              ["Now rotate your head to the left"], 70)
        else
          if nose_offset > s.rotation_threshold then
            if s.rotation_direction ≠ some RotDir.right then
              ({ s with right_rotations := s.right_rotations + 1,
                        rotation_direction := some RotDir.right },
                ["Right rotation " ++ toString (s.right_rotations + 1)], 90)
            else
              (s, ["Good right rotation, now slowly return to center"], 85)
          else if nose_offset < -s.rotation_threshold then
            (s, ["Focus on rotating to your right for now"], 60)
          else
            ({ s with rotation_direction := none },
              ["Now rotate your head to the right"], 70)
      else if phase = ExercisePhase.cooldown then
        (s, ["Excellent! " ++ toString s.left_rotations ++ " left, " ++
              toString s.right_rotations ++ " right rotations"], 85)
      else
        (s, [], 70)
    let s1 := { step.1 with rep_count := step.1.left_rotations + step.1.right_rotations }
    (s1, { exercise_name := "Neck Rotations"
           phase := phase
           form_score := step.2.2
           feedback_messages := step.2.1
           rep_count := s1.rep_count
           is_proper_position := true
           confidence := conf_min confidence neck_required * 100
           exercise_specific_data := some
             { nose_offset := nose_offset
               left_rotations := s1.left_rotations
               right_rotations := s1.right_rotations
               rotation_direction := s1.rotation_direction } })

/-! ## Ankle-circle detector (`ankle_circles.py`) -/

/-- The `'right'` / `'left'` strings held by `self.active_ankle`. -/
inductive AnkleSide where
  | right
  | left
deriving DecidableEq, Repr

/-- Mutable fields of `AnkleCirclesExercise`. -/
structure AnkleState where
  rep_count : ℕ
  confidence_threshold : ℚ
  angle_history : List ℝ
  circle_count : ℕ
  last_quadrant : Option ℕ
  quadrant_visits : List ℕ
  active_ankle : AnkleSide

/-- `AnkleCirclesExercise.__init__`. -/
def AnkleState.init : AnkleState :=
  { rep_count := 0
    confidence_threshold := 3 / 5
    angle_history := []
    circle_count := 0
    last_quadrant := none
    quadrant_visits := []
    active_ankle := AnkleSide.right }

/-- `required_keypoints` of the ankle-circle detector. -/
def ankle_required : List (Fin 17) := [LEFT_ANKLE, RIGHT_ANKLE, LEFT_KNEE, RIGHT_KNEE]

/-- `math.atan2(y, x)` on the reals: the angle of the vector `(x, y)`, in
`(-π, π]` for nonzero input and `0` at the origin. -/
noncomputable def atan2 (y x : ℝ) : ℝ :=
  if 0 < x then Real.arctan (y / x)
  else if x < 0 then
    if 0 ≤ y then Real.arctan (y / x) + Real.pi
    else Real.arctan (y / x) - Real.pi
  else
    if 0 < y then Real.pi / 2
    else if y < 0 then -(Real.pi / 2)
    else 0

/-- `AnkleCirclesExercise._calculate_ankle_angle`:
`atan2(ankle.y - knee.y, ankle.x - knee.x)`. -/
noncomputable def calculate_ankle_angle (ankle knee : ℝ × ℝ) : ℝ :=
  atan2 (ankle.2 - knee.2) (ankle.1 - knee.1)

/-- Python's `angle % (2 * math.pi)` for a positive modulus: the
representative in `[0, 2π)`. This is the normalization step at the top of
`AnkleCirclesExercise._get_quadrant`. -/
noncomputable def normalize_angle (angle : ℝ) : ℝ :=
  angle - 2 * Real.pi * ⌊angle / (2 * Real.pi)⌋

/-- The spec's `bearing(point, origin)` primitive: `atan2(dy, dx)` composed
with the normalization into `[0, 2π)` (in the source the `atan2` lives in
`_calculate_ankle_angle` and the normalization at the top of
`_get_quadrant`). -/
noncomputable def bearing (point origin : ℝ × ℝ) : ℝ :=
  normalize_angle (calculate_ankle_angle point origin)

/-- `AnkleCirclesExercise._get_quadrant`: bin the normalized angle into
quadrants 1-4 by the ranges `[0,π/2)`, `[π/2,π)`, `[π,3π/2)`, `[3π/2,2π)`. -/
noncomputable def get_quadrant (angle : ℝ) : ℕ :=
  let normalized := normalize_angle angle
  if normalized < Real.pi / 2 then 1
  else if normalized < Real.pi then 2
  else if normalized < 3 * Real.pi / 2 then 3
  else 4

/-- `AnkleCirclesExercise._detect_circle_completion`, returning the updated
state and the Boolean result. On a completed circle the function returns
before the trailing `self.last_quadrant = quadrant` assignment, so
`last_quadrant` keeps its old value there. -/
def detect_circle_completion (s : AnkleState) (quadrant : ℕ) : AnkleState × Bool :=
  match s.last_quadrant with
  | some lq =>
    if quadrant ≠ lq then
      let visits := s.quadrant_visits ++ [quadrant]
      if 4 ≤ visits.length ∧ (visits.drop (visits.length - 4)).dedup.length = 4 then
        ({ s with circle_count := s.circle_count + 1, quadrant_visits := [] }, true)
      else
        ({ s with quadrant_visits := visits, last_quadrant := some quadrant }, false)
    else
      ({ s with last_quadrant := some quadrant }, false)
  | none => ({ s with last_quadrant := some quadrant }, false)

/-- The string form of `self.active_ankle` used in the Setup message. -/
def AnkleSide.str : AnkleSide → String
  | AnkleSide.right => "right"
  | AnkleSide.left => "left"

/-- `exercise_specific_data` payload of the ankle-circle detector. -/
structure AnkleData where
  current_angle : ℝ
  current_quadrant : ℕ
  active_ankle : AnkleSide
  angle_history_length : ℕ

/-- `AnkleCirclesExercise.analyze`, returning the updated state and the
analysis record. -/
noncomputable def ankle_analyze (s : AnkleState) (keypoints : Fin 17 → ℝ × ℝ)
    (confidence : Fin 17 → ℚ) (elapsed_time : ℚ) :
    AnkleState × ExerciseAnalysis AnkleData :=
  let phase := update_phase default_phase_durations elapsed_time
  if check_confidence s.confidence_threshold confidence ankle_required = false then
    (s, { exercise_name := "Ankle Circles"
          phase := phase
          form_score := 0
          feedback_messages := ["Cannot see ankles and knees clearly"]
          rep_count := s.circle_count
          is_proper_position := false
          confidence := 0
          exercise_specific_data := none })
  else
    let ankle := if s.active_ankle = AnkleSide.right then keypoints RIGHT_ANKLE
                 else keypoints LEFT_ANKLE
    let knee := if s.active_ankle = AnkleSide.right then keypoints RIGHT_KNEE
                else keypoints LEFT_KNEE
    let current_angle := calculate_ankle_angle ankle knee
    let current_quadrant := get_quadrant current_angle
    let step : AnkleState × List String × ℚ :=
      if phase = ExercisePhase.setup then
        ({ s with angle_history := s.angle_history ++ [current_angle] },
          ["Lift your " ++ s.active_ankle.str ++ " foot slightly and prepare to make circles"], 70)
      else if phase = ExercisePhase.active then
        let history := s.angle_history ++ [current_angle]
        let history := if 100 < history.length then history.drop 1 else history
        let s1 := { s with angle_history := history }
        let detected := detect_circle_completion s1 current_quadrant
        let s2 := detected.1
        let msg_score : List String × ℚ :=
          if detected.2 = true then
            (["Circle " ++ toString s2.circle_count ++ " complete!"], 90)
          else
            (if current_quadrant = 1 then ["Moving forward and out"]
             else if current_quadrant = 2 then ["Moving back and out"]
             else if current_quadrant = 3 then ["Moving back and in"]
             else ["Moving forward and in"], 75)
        if 180 < elapsed_time ∧ s2.active_ankle = AnkleSide.right then
          ({ s2 with active_ankle := AnkleSide.left, circle_count := 0,
                     quadrant_visits := [], last_quadrant := none },
            msg_score.1 ++ ["Switch to left ankle circles"], msg_score.2)
        else
          (s2, msg_score.1, msg_score.2)
      else if phase = ExercisePhase.cooldown then
        (s, ["Great job! You completed " ++ toString s.circle_count ++ " ankle circles"], 85)
      else
        (s, [], 70)
    let s1 := { step.1 with rep_count := step.1.circle_count }
    (s1, { exercise_name := "Ankle Circles"
           phase := phase
           form_score := step.2.2
           feedback_messages := step.2.1
           rep_count := s1.rep_count
           is_proper_position := true
           confidence := conf_min confidence ankle_required * 100
           exercise_specific_data := some
             { current_angle := current_angle
               current_quadrant := current_quadrant
               active_ankle := s1.active_ankle
               angle_history_length := s1.angle_history.length } })

/-! ## Concrete frames and runs used by the testable properties -/

/-- A frame whose shoulders are horizontally `d` apart (left shoulder at
`(d, 0)`, everything else at the origin). -/
def shoulder_frame (d : ℚ) : Fin 17 → ℚ × ℚ :=
  fun i => if i = LEFT_SHOULDER then (d, 0) else (0, 0)

/-- A frame whose nose sits at horizontal offset `o` from the shoulder
midpoint (nose at `(o, 0)`, both shoulders at the origin). -/
def nose_frame (o : ℚ) : Fin 17 → ℚ × ℚ :=
  fun i => if i = NOSE then (o, 0) else (0, 0)

/-- Every keypoint fully confident. -/
def full_confidence : Fin 17 → ℚ := fun _ => 1

/-- Shoulder-squeeze session state with an established baseline of 100. -/
def squeeze_start : ShoulderState :=
  { ShoulderState.init with baseline_distance := some 100 }

/-- Feed a sequence of inter-shoulder distances to the shoulder-squeeze
detector at a fixed elapsed time, keeping only the state. -/
def run_shoulder (s : ShoulderState) (ds : List ℚ) (t : ℚ) : ShoulderState :=
  ds.foldl (fun st d => (shoulder_analyze st (shoulder_frame d) full_confidence t).1) s

/-- Feed a sequence of nose offsets to the neck-rotation detector at a
fixed elapsed time, keeping only the state. -/
def run_neck (s : NeckState) (os : List ℚ) (t : ℚ) : NeckState :=
  os.foldl (fun st o => (neck_analyze st (nose_frame o) full_confidence t).1) s

/-- Feed a sequence of current quadrants through
`_detect_circle_completion`, keeping only the state. -/
def run_quadrants (s : AnkleState) (qs : List ℕ) : AnkleState :=
  qs.foldl (fun st q => (detect_circle_completion st q).1) s

/-! ## General lemmas -/

/-- `check_confidence` returns `false` exactly when some required index has
confidence below the threshold. -/
theorem check_confidence_false_iff (threshold : ℚ) (confidence : Fin 17 → ℚ)
    (l : List (Fin 17)) :
    check_confidence threshold confidence l = false ↔
      ∃ i ∈ l, confidence i < threshold := by
  induction l with
  | nil => simp [check_confidence]
  | cons a rest ih =>
    by_cases h : confidence a < threshold
    · simp [check_confidence, h]
    · simp [check_confidence, h, ih]

/-! ## Claim theorems -/

/-- C1: with the default duration table (Setup 120 s, Active 120 s,
Cooldown 60 s), `update_phase` returns `not_started` for negative elapsed
time, `setup` on `[0, 120)`, `active` on `[120, 240)`, `cooldown` on
`[240, 300)` and `completed` from 300 on; in particular the boundaries are
exclusive-upper, so elapsed time 120 already belongs to `active`. -/
theorem C1_update_phase_default_boundaries (t : ℚ) :
    update_phase default_phase_durations t =
      if t < 0 then ExercisePhase.not_started
      else if t < 120 then ExercisePhase.setup
      else if t < 240 then ExercisePhase.active
      else if t < 300 then ExercisePhase.cooldown
      else ExercisePhase.completed := by
  simp only [update_phase, default_phase_durations, update_phase_aux]
  norm_num

/-- C2: for each of the three detectors, if some required keypoint's
confidence is below the 0.6 threshold, `analyze` returns form score 0,
aggregate confidence 0, `is_proper_position = false`, the explanatory
message, and a rep count equal to the one the previous call reported
(the session state, counters included, is left unchanged). -/
theorem C2_low_confidence_fails_closed :
    (∀ (s : ShoulderState) (kp : Fin 17 → ℚ × ℚ) (conf : Fin 17 → ℚ) (t : ℚ),
      s.confidence_threshold = 3 / 5 →
      (∃ i ∈ shoulder_required, conf i < 3 / 5) →
      (shoulder_analyze s kp conf t).2.form_score = 0 ∧
      (shoulder_analyze s kp conf t).2.confidence = 0 ∧
      (shoulder_analyze s kp conf t).2.is_proper_position = false ∧
      (shoulder_analyze s kp conf t).2.feedback_messages = ["Cannot see shoulders clearly"] ∧
      (shoulder_analyze s kp conf t).2.rep_count = s.rep_count ∧
      (shoulder_analyze s kp conf t).1 = s) ∧
    (∀ (s : NeckState) (kp : Fin 17 → ℚ × ℚ) (conf : Fin 17 → ℚ) (t : ℚ),
      s.confidence_threshold = 3 / 5 →
      (∃ i ∈ neck_required, conf i < 3 / 5) →
      (neck_analyze s kp conf t).2.form_score = 0 ∧
      (neck_analyze s kp conf t).2.confidence = 0 ∧
      (neck_analyze s kp conf t).2.is_proper_position = false ∧
      (neck_analyze s kp conf t).2.feedback_messages = ["Cannot see face and shoulders clearly"] ∧
      (neck_analyze s kp conf t).2.rep_count = s.left_rotations + s.right_rotations ∧
      (neck_analyze s kp conf t).1 = s) ∧
    (∀ (s : AnkleState) (kp : Fin 17 → ℝ × ℝ) (conf : Fin 17 → ℚ) (t : ℚ),
      s.confidence_threshold = 3 / 5 →
      (∃ i ∈ ankle_required, conf i < 3 / 5) →
      (ankle_analyze s kp conf t).2.form_score = 0 ∧
      (ankle_analyze s kp conf t).2.confidence = 0 ∧
      (ankle_analyze s kp conf t).2.is_proper_position = false ∧
      (ankle_analyze s kp conf t).2.feedback_messages = ["Cannot see ankles and knees clearly"] ∧
      (ankle_analyze s kp conf t).2.rep_count = s.circle_count ∧
      (ankle_analyze s kp conf t).1 = s) := by
  refine ⟨?_, ?_, ?_⟩ <;> intro s kp conf t hth hex
  · have hcc : check_confidence s.confidence_threshold conf shoulder_required = false := by
      rw [hth]; exact (check_confidence_false_iff _ _ _).mpr hex
    simp [shoulder_analyze, hcc]
  · have hcc : check_confidence s.confidence_threshold conf neck_required = false := by
      rw [hth]; exact (check_confidence_false_iff _ _ _).mpr hex
    simp [neck_analyze, hcc]
  · have hcc : check_confidence s.confidence_threshold conf ankle_required = false := by
      rw [hth]; exact (check_confidence_false_iff _ _ _).mpr hex
    simp [ankle_analyze, hcc]

/-- Witness for C2: evaluated on the initial states with every confidence
zero (below 0.6) at elapsed time 0. -/
theorem C2_low_confidence_fails_closed_witness :
    (shoulder_analyze ShoulderState.init (fun _ => (0, 0)) (fun _ => 0) 0).2.form_score = 0 ∧
    (shoulder_analyze ShoulderState.init (fun _ => (0, 0)) (fun _ => 0) 0).1 =
      ShoulderState.init ∧
    (neck_analyze NeckState.init (fun _ => (0, 0)) (fun _ => 0) 0).2.form_score = 0 ∧
    (neck_analyze NeckState.init (fun _ => (0, 0)) (fun _ => 0) 0).1 = NeckState.init ∧
    (ankle_analyze AnkleState.init (fun _ => (0, 0)) (fun _ => 0) 0).2.form_score = 0 ∧
    (ankle_analyze AnkleState.init (fun _ => (0, 0)) (fun _ => 0) 0).1 = AnkleState.init := by
  have h := C2_low_confidence_fails_closed
  have h1 := h.1 ShoulderState.init (fun _ => (0, 0)) (fun _ => 0) 0 (by norm_num [ShoulderState.init])
    ⟨LEFT_SHOULDER, by simp [shoulder_required], by norm_num⟩
  have h2 := h.2.1 NeckState.init (fun _ => (0, 0)) (fun _ => 0) 0 (by norm_num [NeckState.init])
    ⟨NOSE, by simp [neck_required], by norm_num⟩
  have h3 := h.2.2 AnkleState.init (fun _ => (0, 0)) (fun _ => 0) 0 (by norm_num [AnkleState.init])
    ⟨LEFT_ANKLE, by simp [ankle_required], by norm_num⟩
  exact ⟨h1.1, h1.2.2.2.2.2, h2.1, h2.2.2.2.2.2, h3.1, h3.2.2.2.2.2⟩

/-- C10: in the Active phase with a missing (`None`) or zero baseline, the
shoulder-squeeze `analyze` skips the whole squeeze-detection branch — the
guard `if self.baseline_distance:` is falsy — so the division by the
baseline is never reached, the state (counters and flags included) is
unchanged, and the call still returns a well-formed analysis (base score
70, proper position, unchanged rep count, no squeeze feedback). -/
theorem C10_active_falsy_baseline_skips
    (s : ShoulderState) (kp : Fin 17 → ℚ × ℚ) (conf : Fin 17 → ℚ) (t : ℚ)
    (hphase : update_phase default_phase_durations t = ExercisePhase.active)
    (hcc : check_confidence s.confidence_threshold conf shoulder_required = true)
    (hb : s.baseline_distance = none ∨ s.baseline_distance = some 0) :
    (shoulder_analyze s kp conf t).1 = s ∧
    (shoulder_analyze s kp conf t).2.form_score = 70 ∧
    (shoulder_analyze s kp conf t).2.is_proper_position = true ∧
    (shoulder_analyze s kp conf t).2.rep_count = s.rep_count ∧
    (shoulder_analyze s kp conf t).2.feedback_messages = [] := by
  have htr : baseline_truthy s.baseline_distance = false := by
    rcases hb with h | h <;> simp [baseline_truthy, h]
  simp [shoulder_analyze, hphase, hcc, htr]

/-- Witness for C10: the initial state (baseline `None`) at elapsed time
130 with every confidence 1. -/
theorem C10_active_falsy_baseline_skips_witness :
    (shoulder_analyze ShoulderState.init (shoulder_frame 50) full_confidence 130).1 =
      ShoulderState.init ∧
    (shoulder_analyze ShoulderState.init (shoulder_frame 50) full_confidence 130).2.form_score
      = 70 := by
  have h := C10_active_falsy_baseline_skips ShoulderState.init (shoulder_frame 50)
    full_confidence 130
    (by norm_num [update_phase, update_phase_aux, default_phase_durations])
    (by norm_num +decide [check_confidence, shoulder_required, ShoulderState.init,
      full_confidence])
    (Or.inl rfl)
  exact ⟨h.1, h.2.1⟩

/-- C3: shoulder-squeeze hysteresis in the Active phase with an established
(non-falsy) baseline: squeeze percentage above 20 while not in a squeeze
sets `in_squeeze` with score 90 and no rep change; squeeze percentage at or
below 20 while in a squeeze counts exactly one rep and clears `in_squeeze`.
With baseline 100 and Active-phase distances `[100, 100, 75, 75, 100]`,
`in_squeeze` first turns true at the first distance at most 80 (the 75) and
the rep count increments exactly once, when the distance returns to 100. -/
theorem C3_shoulder_squeeze_hysteresis :
    (∀ (s : ShoulderState) (kp : Fin 17 → ℚ × ℚ) (conf : Fin 17 → ℚ) (t b : ℚ),
      update_phase default_phase_durations t = ExercisePhase.active →
      check_confidence s.confidence_threshold conf shoulder_required = true →
      s.baseline_distance = some b → b ≠ 0 →
      (((b - |(kp LEFT_SHOULDER).1 - (kp RIGHT_SHOULDER).1|) / b * 100 > 20 →
        s.in_squeeze = false →
        (shoulder_analyze s kp conf t).1.in_squeeze = true ∧
        (shoulder_analyze s kp conf t).2.form_score = 90 ∧
        (shoulder_analyze s kp conf t).1.rep_count = s.rep_count) ∧
      ((b - |(kp LEFT_SHOULDER).1 - (kp RIGHT_SHOULDER).1|) / b * 100 ≤ 20 →
        s.in_squeeze = true →
        (shoulder_analyze s kp conf t).1.rep_count = s.rep_count + 1 ∧
        (shoulder_analyze s kp conf t).1.in_squeeze = false))) ∧
    (run_shoulder squeeze_start [100, 100] 130).in_squeeze = false ∧
    (run_shoulder squeeze_start [100, 100] 130).rep_count = 0 ∧
    (run_shoulder squeeze_start [100, 100, 75] 130).in_squeeze = true ∧
    (run_shoulder squeeze_start [100, 100, 75] 130).rep_count = 0 ∧
    (run_shoulder squeeze_start [100, 100, 75, 75] 130).in_squeeze = true ∧
    (run_shoulder squeeze_start [100, 100, 75, 75] 130).rep_count = 0 ∧
    (run_shoulder squeeze_start [100, 100, 75, 75, 100] 130).in_squeeze = false ∧
    (run_shoulder squeeze_start [100, 100, 75, 75, 100] 130).rep_count = 1 := by
  constructor
  · intro s kp conf t b hphase hcc hb hbz
    have htr : baseline_truthy (some b) = true := by
      simp [baseline_truthy, hbz]
    constructor
    · intro hsq hin
      simp [shoulder_analyze, hphase, hcc, htr, hb, hsq, hin]
    · intro hsq hin
      have hns : ¬ ((b - |(kp LEFT_SHOULDER).1 - (kp RIGHT_SHOULDER).1|) / b * 100 > 20) :=
        not_lt.mpr hsq
      simp [shoulder_analyze, hphase, hcc, htr, hb, hns, hin]
  · refine ⟨?_, ?_, ?_, ?_, ?_, ?_, ?_, ?_⟩ <;>
      norm_num +decide [run_shoulder, List.foldl, shoulder_analyze, squeeze_start,
        ShoulderState.init, shoulder_frame, full_confidence, check_confidence,
        shoulder_required, update_phase, update_phase_aux, default_phase_durations,
        baseline_truthy, LEFT_SHOULDER, RIGHT_SHOULDER]

/-- Witness for C3: entering the squeeze at distance 75 (25 % below the
baseline 100) and releasing at distance 100, at elapsed time 130. -/
theorem C3_shoulder_squeeze_hysteresis_witness :
    (shoulder_analyze squeeze_start (shoulder_frame 75) full_confidence 130).1.in_squeeze
      = true ∧
    (shoulder_analyze squeeze_start (shoulder_frame 75) full_confidence 130).2.form_score
      = 90 ∧
    (shoulder_analyze { squeeze_start with in_squeeze := true } (shoulder_frame 100)
        full_confidence 130).1.rep_count = 1 ∧
    (shoulder_analyze { squeeze_start with in_squeeze := true } (shoulder_frame 100)
        full_confidence 130).1.in_squeeze = false := by
  have h := C3_shoulder_squeeze_hysteresis
  have ha := (h.1 squeeze_start (shoulder_frame 75) full_confidence 130 100
    (by norm_num [update_phase, update_phase_aux, default_phase_durations])
    (by norm_num +decide [check_confidence, shoulder_required, squeeze_start,
      ShoulderState.init, full_confidence])
    rfl (by norm_num)).1
    (by norm_num +decide [shoulder_frame, LEFT_SHOULDER, RIGHT_SHOULDER]) rfl
  have hb := (h.1 { squeeze_start with in_squeeze := true } (shoulder_frame 100)
    full_confidence 130 100
    (by norm_num [update_phase, update_phase_aux, default_phase_durations])
    (by norm_num +decide [check_confidence, shoulder_required, squeeze_start,
      ShoulderState.init, full_confidence])
    rfl (by norm_num)).2
    (by norm_num +decide [shoulder_frame, LEFT_SHOULDER, RIGHT_SHOULDER]) rfl
  exact ⟨ha.1, ha.2.1, hb.1, hb.2⟩

/-- C4: neck-rotation debounced edge counting in the Active phase before
180 s with threshold 30: a leftward excursion (offset below −30) counts
exactly when the tracked direction is not already `left`; a repeated
leftward frame does not count again; a dead-zone frame (|offset| ≤ 30)
clears the tracked direction. Feeding nose offsets `[0, −40, −40, 0, −40]`
yields `left_rotations = 2`. -/
theorem C4_neck_rotation_debounce :
    (∀ (s : NeckState) (kp : Fin 17 → ℚ × ℚ) (conf : Fin 17 → ℚ) (t : ℚ),
      update_phase default_phase_durations t = ExercisePhase.active →
      check_confidence s.confidence_threshold conf neck_required = true →
      t < 180 → s.rotation_threshold = 30 →
      ((((kp NOSE).1 - ((kp LEFT_SHOULDER).1 + (kp RIGHT_SHOULDER).1) / 2) < -30 →
        s.rotation_direction ≠ some RotDir.left →
        (neck_analyze s kp conf t).1.left_rotations = s.left_rotations + 1 ∧
        (neck_analyze s kp conf t).1.rotation_direction = some RotDir.left) ∧
      (((kp NOSE).1 - ((kp LEFT_SHOULDER).1 + (kp RIGHT_SHOULDER).1) / 2) < -30 →
        s.rotation_direction = some RotDir.left →
        (neck_analyze s kp conf t).1.left_rotations = s.left_rotations) ∧
      (|(kp NOSE).1 - ((kp LEFT_SHOULDER).1 + (kp RIGHT_SHOULDER).1) / 2| ≤ 30 →
        (neck_analyze s kp conf t).1.rotation_direction = none ∧
        (neck_analyze s kp conf t).1.left_rotations = s.left_rotations))) ∧
    (run_neck NeckState.init [0, -40, -40, 0, -40] 130).left_rotations = 2 := by
  constructor
  · intro s kp conf t hphase hcc ht hth
    refine ⟨?_, ?_, ?_⟩
    · intro hoff hdir
      simp [neck_analyze, hphase, hcc, ht, hth, hoff, hdir]
    · intro hoff hdir
      simp [neck_analyze, hphase, hcc, ht, hth, hoff, hdir]
    · intro habs
      rw [abs_le] at habs
      have h1 : ¬ ((kp NOSE).1 - ((kp LEFT_SHOULDER).1 + (kp RIGHT_SHOULDER).1) / 2 < -30) := by
        push_neg
        linarith [habs.1]
      have h2 : ¬ ((kp NOSE).1 - ((kp LEFT_SHOULDER).1 + (kp RIGHT_SHOULDER).1) / 2 > 30) := by
        push_neg
        linarith [habs.2]
      simp [neck_analyze, hphase, hcc, ht, hth, h1, h2]
  · norm_num +decide [run_neck, List.foldl, neck_analyze, NeckState.init, nose_frame,
      full_confidence, check_confidence, neck_required, update_phase, update_phase_aux,
      default_phase_durations, NOSE, LEFT_SHOULDER, RIGHT_SHOULDER]

/-- Witness for C4: a −40 offset counts from a cleared direction, a second
−40 with tracked direction `left` does not, and offset 0 clears the
direction; all at elapsed time 130. -/
theorem C4_neck_rotation_debounce_witness :
    (neck_analyze NeckState.init (nose_frame (-40)) full_confidence 130).1.left_rotations
      = 1 ∧
    (neck_analyze { NeckState.init with rotation_direction := some RotDir.left }
        (nose_frame (-40)) full_confidence 130).1.left_rotations = 0 ∧
    (neck_analyze { NeckState.init with rotation_direction := some RotDir.left }
        (nose_frame 0) full_confidence 130).1.rotation_direction = none := by
  have h := C4_neck_rotation_debounce
  have h1 := (h.1 NeckState.init (nose_frame (-40)) full_confidence 130
    (by norm_num [update_phase, update_phase_aux, default_phase_durations])
    (by norm_num +decide [check_confidence, neck_required, NeckState.init, full_confidence])
    (by norm_num) rfl).1
    (by norm_num +decide [nose_frame, NOSE, LEFT_SHOULDER, RIGHT_SHOULDER])
    (by simp [NeckState.init])
  have h2 := (h.1 { NeckState.init with rotation_direction := some RotDir.left }
    (nose_frame (-40)) full_confidence 130
    (by norm_num [update_phase, update_phase_aux, default_phase_durations])
    (by norm_num +decide [check_confidence, neck_required, NeckState.init, full_confidence])
    (by norm_num) rfl).2.1
    (by norm_num +decide [nose_frame, NOSE, LEFT_SHOULDER, RIGHT_SHOULDER]) rfl
  have h3 := (h.1 { NeckState.init with rotation_direction := some RotDir.left }
    (nose_frame 0) full_confidence 130
    (by norm_num [update_phase, update_phase_aux, default_phase_durations])
    (by norm_num +decide [check_confidence, neck_required, NeckState.init, full_confidence])
    (by norm_num) rfl).2.2
    (by norm_num +decide [nose_frame, NOSE, LEFT_SHOULDER, RIGHT_SHOULDER])
  exact ⟨h1.1, h2, h3.1⟩

/-- C5: `_detect_circle_completion` counts a circle exactly when a quadrant
change makes the most recent 4 logged transitions contain all 4 distinct
quadrant values (any order), incrementing `circle_count` by one and
clearing the transition log; feeding current quadrants `4, 1, 2, 3, 4`
from the fresh state logs the transitions `1, 2, 3, 4` and yields
`circle_count = 1` with an empty log afterwards. -/
theorem C5_circle_completion_on_four_distinct :
    (∀ (s : AnkleState) (q lq : ℕ),
      s.last_quadrant = some lq → q ≠ lq →
      4 ≤ (s.quadrant_visits ++ [q]).length →
      ((s.quadrant_visits ++ [q]).drop ((s.quadrant_visits ++ [q]).length - 4)).dedup.length
        = 4 →
      (detect_circle_completion s q).1.circle_count = s.circle_count + 1 ∧
      (detect_circle_completion s q).1.quadrant_visits = [] ∧
      (detect_circle_completion s q).2 = true) ∧
    (run_quadrants AnkleState.init [4, 1, 2, 3, 4]).circle_count = 1 ∧
    (run_quadrants AnkleState.init [4, 1, 2, 3, 4]).quadrant_visits = [] := by
  refine ⟨?_, by decide, by decide⟩
  intro s q lq hlq hne hlen hded
  simp only [detect_circle_completion, hlq]
  rw [if_pos hne, if_pos ⟨hlen, hded⟩]
  simp

/-- Witness for C5: from the state reached after quadrants `4, 1, 2, 3`,
the change to quadrant 4 completes the circle. -/
theorem C5_circle_completion_on_four_distinct_witness :
    (detect_circle_completion (run_quadrants AnkleState.init [4, 1, 2, 3]) 4).1.circle_count
      = 1 ∧
    (detect_circle_completion (run_quadrants AnkleState.init [4, 1, 2, 3]) 4).1.quadrant_visits
      = [] ∧
    (detect_circle_completion (run_quadrants AnkleState.init [4, 1, 2, 3]) 4).2 = true := by
  have h := C5_circle_completion_on_four_distinct
  have hc := h.1 (run_quadrants AnkleState.init [4, 1, 2, 3]) 4 3
    (by decide) (by decide) (by decide) (by decide)
  have hcount : (run_quadrants AnkleState.init [4, 1, 2, 3]).circle_count = 0 := by decide
  exact ⟨by rw [hc.1, hcount], hc.2.1, hc.2.2⟩

/-- `_detect_circle_completion` never touches `active_ankle`. -/
theorem detect_circle_completion_active_ankle (s : AnkleState) (q : ℕ) :
    (detect_circle_completion s q).1.active_ankle = s.active_ankle := by
  unfold detect_circle_completion
  rcases hlq : s.last_quadrant with _ | lq
  · simp [hlq]
  · simp only [hlq]
    split_ifs <;> rfl

/-- C6 (amended): the ankle switch happens only inside the Active-phase
branch of `analyze` and only after the confidence gate passes. For any
call in the Active phase (so `180 < elapsed_time < 240` under the default
durations) whose required confidences pass, starting from
`active_ankle = 'right'`, afterwards `active_ankle = 'left'` and
`circle_count = 0`, with the transition log and last-quadrant state
cleared. The original claim's "any analyze call with elapsed_time > 180"
fails outside the Active phase (see the counterexample at 250 s,
Cooldown). -/
theorem C6_ankle_switch_amended (s : AnkleState) (kp : Fin 17 → ℝ × ℝ)
    (conf : Fin 17 → ℚ) (t : ℚ)
    (hcc : check_confidence s.confidence_threshold conf ankle_required = true)
    (hphase : update_phase default_phase_durations t = ExercisePhase.active)
    (ht : 180 < t) (ha : s.active_ankle = AnkleSide.right) :
    (ankle_analyze s kp conf t).1.active_ankle = AnkleSide.left ∧
    (ankle_analyze s kp conf t).1.circle_count = 0 ∧
    (ankle_analyze s kp conf t).1.quadrant_visits = [] ∧
    (ankle_analyze s kp conf t).1.last_quadrant = none := by
  simp [ankle_analyze, hcc, hphase, ht, detect_circle_completion_active_ankle, ha]

/-- Witness for C6 (amended): the fresh detector at elapsed time 200 with
all confidences 1. -/
theorem C6_ankle_switch_amended_witness :
    (ankle_analyze AnkleState.init (fun _ => (0, 0)) full_confidence 200).1.active_ankle =
      AnkleSide.left ∧
    (ankle_analyze AnkleState.init (fun _ => (0, 0)) full_confidence 200).1.circle_count
      = 0 := by
  have h := C6_ankle_switch_amended AnkleState.init (fun _ => (0, 0)) full_confidence 200
    (by norm_num +decide [check_confidence, ankle_required, AnkleState.init, full_confidence])
    (by norm_num [update_phase, update_phase_aux, default_phase_durations])
    (by norm_num) rfl
  exact ⟨h.1, h.2.1⟩

/-- Counterexample to C6 as stated: at elapsed time 250 (> 180 but in the
Cooldown phase) a call with fully confident keypoints leaves
`active_ankle = 'right'` — the switch code lives inside the Active-phase
branch, which is not taken. -/
theorem C6_counterexample_cooldown_call :
    (180 : ℚ) < 250 ∧
    check_confidence AnkleState.init.confidence_threshold full_confidence ankle_required
      = true ∧
    (ankle_analyze AnkleState.init (fun _ => (0, 0)) full_confidence 250).1.active_ankle =
      AnkleSide.right := by
  have hphase : update_phase default_phase_durations 250 = ExercisePhase.cooldown := by
    norm_num [update_phase, update_phase_aux, default_phase_durations]
  refine ⟨by norm_num,
    by norm_num +decide [check_confidence, ankle_required, AnkleState.init, full_confidence],
    ?_⟩
  simp only [ankle_analyze, hphase, AnkleState.init]
  norm_num
  split_ifs <;> rfl

/-- C9: the bearing primitive — `atan2(dy, dx)` of a point relative to an
origin, normalized by the `% (2π)` step at the top of `_get_quadrant` —
lands in `[0, 2π)` for every pair of input points. -/
theorem C9_bearing_normalized (point origin : ℝ × ℝ) :
    0 ≤ bearing point origin ∧ bearing point origin < 2 * Real.pi := by
  have hc : (0 : ℝ) < 2 * Real.pi := by positivity
  have key : bearing point origin =
      2 * Real.pi * Int.fract (calculate_ankle_angle point origin / (2 * Real.pi)) := by
    unfold bearing normalize_angle Int.fract
    field_simp
  constructor
  · rw [key]
    exact mul_nonneg hc.le (Int.fract_nonneg _)
  · rw [key]
    calc 2 * Real.pi * Int.fract (calculate_ankle_angle point origin / (2 * Real.pi))
        < 2 * Real.pi * 1 := by
          exact (mul_lt_mul_left hc).mpr (Int.fract_lt_one _)
      _ = 2 * Real.pi := mul_one _

set_option maxHeartbeats 1000000 in
/-- C8: for every detector, every frame (keypoints and confidences), every
session state and every elapsed time, the returned `form_score` lies in
`[0, 100]` (the branches only ever assign 0, 60, 70, 75, 85 or 90). -/
theorem C8_form_score_in_range :
    (∀ (s : ShoulderState) (kp : Fin 17 → ℚ × ℚ) (conf : Fin 17 → ℚ) (t : ℚ),
      0 ≤ (shoulder_analyze s kp conf t).2.form_score ∧
      (shoulder_analyze s kp conf t).2.form_score ≤ 100) ∧
    (∀ (s : NeckState) (kp : Fin 17 → ℚ × ℚ) (conf : Fin 17 → ℚ) (t : ℚ),
      0 ≤ (neck_analyze s kp conf t).2.form_score ∧
      (neck_analyze s kp conf t).2.form_score ≤ 100) ∧
    (∀ (s : AnkleState) (kp : Fin 17 → ℝ × ℝ) (conf : Fin 17 → ℚ) (t : ℚ),
      0 ≤ (ankle_analyze s kp conf t).2.form_score ∧
      (ankle_analyze s kp conf t).2.form_score ≤ 100) := by
  refine ⟨?_, ?_, ?_⟩ <;> intro s kp conf t
  · simp only [shoulder_analyze]
    split_ifs <;> constructor <;> dsimp only <;> norm_num
  · simp only [neck_analyze]
    split_ifs <;> constructor <;> dsimp only <;> norm_num
  · simp only [ankle_analyze]
    split_ifs <;> constructor <;> dsimp only <;> norm_num

/-- `_detect_circle_completion` never touches `rep_count`,
`confidence_threshold` or `angle_history`. -/
theorem detect_circle_completion_frame (s : AnkleState) (q : ℕ) :
    (detect_circle_completion s q).1.rep_count = s.rep_count ∧
    (detect_circle_completion s q).1.confidence_threshold = s.confidence_threshold ∧
    (detect_circle_completion s q).1.angle_history = s.angle_history := by
  unfold detect_circle_completion
  rcases hlq : s.last_quadrant with _ | lq
  · simp [hlq]
  · simp [hlq]
    split_ifs <;> simp

/-- After `_detect_circle_completion`, either the last quadrant equals the
fed quadrant (the usual case) or the transition log was just cleared by a
completed circle. -/
theorem detect_circle_completion_after (s : AnkleState) (q : ℕ) :
    (detect_circle_completion s q).1.last_quadrant = some q ∨
    (detect_circle_completion s q).1.quadrant_visits = [] := by
  unfold detect_circle_completion
  rcases hlq : s.last_quadrant with _ | lq
  · simp [hlq]
  · simp only [hlq]
    split_ifs <;> simp

/-- Feeding a quadrant that already equals `last_quadrant`, or feeding any
quadrant while the transition log is empty, cannot count a circle. -/
theorem detect_circle_completion_no_count (s : AnkleState) (q : ℕ)
    (h : s.last_quadrant = some q ∨ s.quadrant_visits = []) :
    (detect_circle_completion s q).1.circle_count = s.circle_count := by
  unfold detect_circle_completion
  rcases hlq : s.last_quadrant with _ | lq
  · simp [hlq]
  · simp only [hlq]
    rcases h with h | h
    · rw [hlq] at h
      have : q = lq := by injection h.symm
      simp [this]
    · by_cases hne : q ≠ lq
      · rw [if_pos hne]
        have hlen : ¬ (4 ≤ (s.quadrant_visits ++ [q]).length ∧
            ((s.quadrant_visits ++ [q]).drop ((s.quadrant_visits ++ [q]).length - 4)).dedup.length
              = 4) := by
          simp [h]
        rw [if_neg hlen]
      · simp at hne
        simp [hne]

/-- Repeating `ShoulderSqueezesExercise.analyze` on the same frame and the
same elapsed time is a no-op on the session state. -/
theorem shoulder_analyze_state_idem (s : ShoulderState) (kp : Fin 17 → ℚ × ℚ)
    (conf : Fin 17 → ℚ) (t : ℚ) :
    (shoulder_analyze (shoulder_analyze s kp conf t).1 kp conf t).1 =
      (shoulder_analyze s kp conf t).1 := by
  by_cases hc : check_confidence s.confidence_threshold conf shoulder_required = false
  · have h1 : (shoulder_analyze s kp conf t).1 = s := by simp [shoulder_analyze, hc]
    simp [h1]
  · cases hp : update_phase default_phase_durations t with
    | not_started =>
      have h1 : (shoulder_analyze s kp conf t).1 = s := by simp [shoulder_analyze, hc, hp]
      simp [h1]
    | completed =>
      have h1 : (shoulder_analyze s kp conf t).1 = s := by simp [shoulder_analyze, hc, hp]
      simp [h1]
    | cooldown =>
      have h1 : (shoulder_analyze s kp conf t).1 = s := by simp [shoulder_analyze, hc, hp]
      simp [h1]
    | setup =>
      by_cases hb : s.baseline_distance = none ∨ t < 10
      · have h1 : (shoulder_analyze s kp conf t).1 =
            { s with
              baseline_distance := some (abs ((kp LEFT_SHOULDER).1 - (kp RIGHT_SHOULDER).1)) }
            := by
          simp [shoulder_analyze, hc, hp, hb]
        rw [h1]
        by_cases ht : t < 10
        · simp [shoulder_analyze, hc, hp, ht]
        · simp [shoulder_analyze, hc, hp, ht]
      · have h1 : (shoulder_analyze s kp conf t).1 = s := by
          simp [shoulder_analyze, hc, hp, hb]
        simp [h1]
    | active =>
      by_cases htr : baseline_truthy s.baseline_distance = true
      · by_cases hsq : (s.baseline_distance.getD 0 -
            |(kp LEFT_SHOULDER).1 - (kp RIGHT_SHOULDER).1|) / s.baseline_distance.getD 0 * 100
              > 20
        · by_cases hin : s.in_squeeze = false
          · have h1 : (shoulder_analyze s kp conf t).1 = { s with in_squeeze := true } := by
              simp [shoulder_analyze, hc, hp, htr, hsq, hin]
            rw [h1]
            simp [shoulder_analyze, hc, hp, htr, hsq]
          · have h1 : (shoulder_analyze s kp conf t).1 = s := by
              simp [shoulder_analyze, hc, hp, htr, hsq, hin]
            simp [h1]
        · by_cases hin : s.in_squeeze = true
          · have h1 : (shoulder_analyze s kp conf t).1 =
                { s with rep_count := s.rep_count + 1, in_squeeze := false } := by
              simp [shoulder_analyze, hc, hp, htr, hsq, hin]
            rw [h1]
            simp [shoulder_analyze, hc, hp, htr, hsq]
          · have h1 : (shoulder_analyze s kp conf t).1 = s := by
              simp [shoulder_analyze, hc, hp, htr, hsq, hin]
            simp [h1]
      · have h1 : (shoulder_analyze s kp conf t).1 = s := by
          simp [shoulder_analyze, hc, hp, htr]
        simp [h1]

/-- Repeating `NeckRotationsExercise.analyze` on the same frame and the
same elapsed time is a no-op on the session state. -/
theorem neck_analyze_state_idem (s : NeckState) (kp : Fin 17 → ℚ × ℚ)
    (conf : Fin 17 → ℚ) (t : ℚ) :
    (neck_analyze (neck_analyze s kp conf t).1 kp conf t).1 =
      (neck_analyze s kp conf t).1 := by
  by_cases hc : check_confidence s.confidence_threshold conf neck_required = false
  · have h1 : (neck_analyze s kp conf t).1 = s := by simp [neck_analyze, hc]
    simp [h1]
  · cases hp : update_phase default_phase_durations t with
    | not_started =>
      have h1 : (neck_analyze s kp conf t).1 =
          { s with rep_count := s.left_rotations + s.right_rotations } := by
        simp [neck_analyze, hc, hp]
      rw [h1]
      simp [neck_analyze, hc, hp]
    | completed =>
      have h1 : (neck_analyze s kp conf t).1 =
          { s with rep_count := s.left_rotations + s.right_rotations } := by
        simp [neck_analyze, hc, hp]
      rw [h1]
      simp [neck_analyze, hc, hp]
    | cooldown =>
      have h1 : (neck_analyze s kp conf t).1 =
          { s with rep_count := s.left_rotations + s.right_rotations } := by
        simp [neck_analyze, hc, hp]
      rw [h1]
      simp [neck_analyze, hc, hp]
    | setup =>
      have h1 : (neck_analyze s kp conf t).1 =
          { s with
            shoulder_midpoint_x := some (((kp LEFT_SHOULDER).1 + (kp RIGHT_SHOULDER).1) / 2)
            rep_count := s.left_rotations + s.right_rotations } := by
        simp [neck_analyze, hc, hp]
      rw [h1]
      simp [neck_analyze, hc, hp]
    | active =>
      by_cases ht : t < 180
      · by_cases hlt : (kp NOSE).1 - ((kp LEFT_SHOULDER).1 + (kp RIGHT_SHOULDER).1) / 2
            < -s.rotation_threshold
        · by_cases hdir : s.rotation_direction = some RotDir.left
          · have h1 : (neck_analyze s kp conf t).1 =
                { s with rep_count := s.left_rotations + s.right_rotations } := by
              simp [neck_analyze, hc, hp, ht, hlt, hdir]
            rw [h1]
            simp [neck_analyze, hc, hp, ht, hlt, hdir]
          · have h1 : (neck_analyze s kp conf t).1 =
                { s with
                  rotation_direction := some RotDir.left
                  left_rotations := s.left_rotations + 1
                  rep_count := s.left_rotations + 1 + s.right_rotations } := by
              simp [neck_analyze, hc, hp, ht, hlt, hdir]
            rw [h1]
            simp [neck_analyze, hc, hp, ht, hlt]
        · by_cases hgt : (kp NOSE).1 - ((kp LEFT_SHOULDER).1 + (kp RIGHT_SHOULDER).1) / 2
              > s.rotation_threshold
          · have h1 : (neck_analyze s kp conf t).1 =
                { s with rep_count := s.left_rotations + s.right_rotations } := by
              simp [neck_analyze, hc, hp, ht, hlt, hgt]
            rw [h1]
            simp [neck_analyze, hc, hp, ht, hlt, hgt]
          · have h1 : (neck_analyze s kp conf t).1 =
                { s with
                  rotation_direction := none
                  rep_count := s.left_rotations + s.right_rotations } := by
              simp [neck_analyze, hc, hp, ht, hlt, hgt]
            rw [h1]
            simp [neck_analyze, hc, hp, ht, hlt, hgt]
      · by_cases hgt : (kp NOSE).1 - ((kp LEFT_SHOULDER).1 + (kp RIGHT_SHOULDER).1) / 2
            > s.rotation_threshold
        · by_cases hdir : s.rotation_direction = some RotDir.right
          · have h1 : (neck_analyze s kp conf t).1 =
                { s with rep_count := s.left_rotations + s.right_rotations } := by
              simp [neck_analyze, hc, hp, ht, hgt, hdir]
            rw [h1]
            simp [neck_analyze, hc, hp, ht, hgt, hdir]
          · have h1 : (neck_analyze s kp conf t).1 =
                { s with
                  rotation_direction := some RotDir.right
                  right_rotations := s.right_rotations + 1
                  rep_count := s.left_rotations + (s.right_rotations + 1) } := by
              simp [neck_analyze, hc, hp, ht, hgt, hdir]
            rw [h1]
            simp [neck_analyze, hc, hp, ht, hgt]
        · by_cases hlt : (kp NOSE).1 - ((kp LEFT_SHOULDER).1 + (kp RIGHT_SHOULDER).1) / 2
              < -s.rotation_threshold
          · have h1 : (neck_analyze s kp conf t).1 =
                { s with rep_count := s.left_rotations + s.right_rotations } := by
              simp [neck_analyze, hc, hp, ht, hgt, hlt]
            rw [h1]
            simp [neck_analyze, hc, hp, ht, hgt, hlt]
          · have h1 : (neck_analyze s kp conf t).1 =
                { s with
                  rotation_direction := none
                  rep_count := s.left_rotations + s.right_rotations } := by
              simp [neck_analyze, hc, hp, ht, hgt, hlt]
            rw [h1]
            simp [neck_analyze, hc, hp, ht, hgt, hlt]

/-- `_detect_circle_completion` never touches `confidence_threshold`. -/
theorem detect_circle_completion_confidence_threshold (s : AnkleState) (q : ℕ) :
    (detect_circle_completion s q).1.confidence_threshold = s.confidence_threshold := by
  unfold detect_circle_completion
  rcases hlq : s.last_quadrant with _ | lq
  · simp [hlq]
  · simp only [hlq]
    split_ifs <;> simp

/-- Repeating `AnkleCirclesExercise.analyze` on the same frame and the same
elapsed time changes neither `circle_count`, nor the reported `rep_count`,
nor `active_ankle` (only the diagnostic angle history keeps growing). -/
theorem ankle_analyze_counts_idem (s : AnkleState) (kp : Fin 17 → ℝ × ℝ)
    (conf : Fin 17 → ℚ) (t : ℚ) :
    (ankle_analyze (ankle_analyze s kp conf t).1 kp conf t).1.circle_count =
      (ankle_analyze s kp conf t).1.circle_count ∧
    (ankle_analyze (ankle_analyze s kp conf t).1 kp conf t).1.rep_count =
      (ankle_analyze s kp conf t).1.rep_count ∧
    (ankle_analyze (ankle_analyze s kp conf t).1 kp conf t).1.active_ankle =
      (ankle_analyze s kp conf t).1.active_ankle := by
  by_cases hc : check_confidence s.confidence_threshold conf ankle_required = false
  · have h1 : (ankle_analyze s kp conf t).1 = s := by simp [ankle_analyze, hc]
    simp [h1]
  · cases hp : update_phase default_phase_durations t with
    | not_started => simp [ankle_analyze, hc, hp]
    | setup => simp [ankle_analyze, hc, hp]
    | cooldown => simp [ankle_analyze, hc, hp]
    | completed => simp [ankle_analyze, hc, hp]
    | active =>
      by_cases h180 : (180 : ℚ) < t
      · by_cases har : s.active_ankle = AnkleSide.right
        · simp [ankle_analyze, hc, hp, h180, har, detect_circle_completion_active_ankle,
            detect_circle_completion_confidence_threshold, detect_circle_completion_no_count,
            detect_circle_completion_after]
        · simp [ankle_analyze, hc, hp, h180, har, detect_circle_completion_active_ankle,
            detect_circle_completion_confidence_threshold, detect_circle_completion_no_count,
            detect_circle_completion_after]
      · simp [ankle_analyze, hc, hp, h180, detect_circle_completion_active_ankle,
          detect_circle_completion_confidence_threshold, detect_circle_completion_no_count,
          detect_circle_completion_after]

/-- C7: calling `analyze` twice with an identical frame (same keypoints and
confidences) and identical elapsed time never double-increments a counter:
for every session state, after the second call `rep_count` and `in_squeeze`
(shoulder), `rep_count`, `left_rotations`, `right_rotations` and
`rotation_direction` (neck), and `circle_count`, `rep_count` and
`active_ankle` (ankle) all equal their values after the first call — the
hysteresis state does not flip on unchanged input. -/
theorem C7_identical_frame_idempotent :
    (∀ (s : ShoulderState) (kp : Fin 17 → ℚ × ℚ) (conf : Fin 17 → ℚ) (t : ℚ),
      (shoulder_analyze (shoulder_analyze s kp conf t).1 kp conf t).1.rep_count =
        (shoulder_analyze s kp conf t).1.rep_count ∧
      (shoulder_analyze (shoulder_analyze s kp conf t).1 kp conf t).1.in_squeeze =
        (shoulder_analyze s kp conf t).1.in_squeeze) ∧
    (∀ (s : NeckState) (kp : Fin 17 → ℚ × ℚ) (conf : Fin 17 → ℚ) (t : ℚ),
      (neck_analyze (neck_analyze s kp conf t).1 kp conf t).1.rep_count =
        (neck_analyze s kp conf t).1.rep_count ∧
      (neck_analyze (neck_analyze s kp conf t).1 kp conf t).1.left_rotations =
        (neck_analyze s kp conf t).1.left_rotations ∧
      (neck_analyze (neck_analyze s kp conf t).1 kp conf t).1.right_rotations =
        (neck_analyze s kp conf t).1.right_rotations ∧
      (neck_analyze (neck_analyze s kp conf t).1 kp conf t).1.rotation_direction =
        (neck_analyze s kp conf t).1.rotation_direction) ∧
    (∀ (s : AnkleState) (kp : Fin 17 → ℝ × ℝ) (conf : Fin 17 → ℚ) (t : ℚ),
      (ankle_analyze (ankle_analyze s kp conf t).1 kp conf t).1.circle_count =
        (ankle_analyze s kp conf t).1.circle_count ∧
      (ankle_analyze (ankle_analyze s kp conf t).1 kp conf t).1.rep_count =
        (ankle_analyze s kp conf t).1.rep_count ∧
      (ankle_analyze (ankle_analyze s kp conf t).1 kp conf t).1.active_ankle =
        (ankle_analyze s kp conf t).1.active_ankle) := by
  refine ⟨?_, ?_, ?_⟩ <;> intro s kp conf t
  · rw [shoulder_analyze_state_idem]
    exact ⟨rfl, rfl⟩
  · rw [neck_analyze_state_idem]
    exact ⟨rfl, rfl, rfl, rfl⟩
  · exact ankle_analyze_counts_idem s kp conf t

end Healius
